import Mathlib

/-!
Verification development for the Quarter-CA financial-analysis backend
(`financial_utils.py`, `analyze_financials.py`).

Modelling conventions (shallow embedding):
* Python/pandas floats are modelled by `Rat` (exact rational arithmetic);
  the program's formulas involve only field arithmetic and guarded division,
  so no claim depends on binary floating-point rounding.
* A pandas DataFrame is a list of column labels plus a list of rows; each row
  is an association list from column labels to cells.  A column label read
  from Excel is either a string or an integer (`ColKey`).  A cell is a
  number, a missing value (NaN), or a non-numeric object (`CellVal`).
  A column's dtype is numeric exactly when none of its cells is a
  non-numeric object; `groupby(...).sum(numeric_only=True)` keeps exactly
  the numeric-dtype non-key columns and treats missing cells as 0.
* `groupby` sorts its (string) keys ascending and drops rows whose key is
  NaN, which is what `Series.str.strip()` produces on non-string values.
* Python's `int(...)` / `float(...)` / `to_numeric` string parsing is
  modelled for decimal literals (optional sign, digits, optional fractional
  part); string ordering is code-point lexicographic, as in Python.
* Fallible code returns `Option` / a dedicated result inductive; an uncaught
  Python exception inside a `try` block is the corresponding `none` /
  failure constructor.
-/

namespace QCA

/-- Column labels of a tabular statement: pandas column labels read from
Excel are either strings or integers. -/
inductive ColKey where
  | str (s : String)
  | int (n : Int)
deriving DecidableEq

/-- A cell of a table: a numeric value, a missing value (NaN), or a
non-numeric (string) object. -/
inductive CellVal where
  | num (q : Rat)
  | na
  | obj (s : String)
deriving DecidableEq

/-- A row: an association list from column labels to cells. -/
abbrev Row := List (ColKey × CellVal)

/-- A pandas DataFrame: ordered column labels and rows. -/
structure DataFrame where
  cols : List ColKey
  rows : List Row
deriving DecidableEq

/-- The row-label column of every statement sheet. -/
def fieldKey : ColKey := .str "Field"

/-- Reading a cell of a row; a column with no entry in the row holds a
missing value (as after `pd.concat` over frames with different columns). -/
def getCell (r : Row) (c : ColKey) : CellVal :=
  match r.find? (fun p => decide (p.1 = c)) with
  | some p => p.2
  | none => .na

/-- The natural number denoted by a list of decimal digits. -/
def digitsToNat (l : List Char) : Nat :=
  l.foldl (fun acc c => acc * 10 + (c.toNat - 48)) 0

/-- Leading and trailing whitespace removed; models Python `str.strip()`
and pandas `Series.str.strip()` on string values. -/
def trimChars (l : List Char) : List Char :=
  ((l.dropWhile Char.isWhitespace).reverse.dropWhile Char.isWhitespace).reverse

/-- Python `str.strip()` on a string. -/
def pyStrip (s : String) : String := ⟨trimChars s.data⟩

/-- Models Python `int(_)` on a string: optional surrounding whitespace,
an optional sign, then at least one decimal digit. -/
def parseIntString (s : String) : Option Int :=
  match trimChars s.data with
  | '-' :: rest =>
      if rest ≠ [] ∧ rest.all Char.isDigit then some (-(digitsToNat rest : Int)) else none
  | '+' :: rest =>
      if rest ≠ [] ∧ rest.all Char.isDigit then some (digitsToNat rest : Int) else none
  | rest =>
      if rest ≠ [] ∧ rest.all Char.isDigit then some (digitsToNat rest : Int) else none

/-- An unsigned decimal literal: digits with an optional fractional part. -/
def parseUnsignedNum (cs : List Char) : Option Rat :=
  let intPart := cs.takeWhile (fun c => decide (c ≠ '.'))
  match cs.drop intPart.length with
  | [] =>
      if intPart ≠ [] ∧ intPart.all Char.isDigit then some (digitsToNat intPart : Rat) else none
  | '.' :: frac =>
      if (intPart ≠ [] ∨ frac ≠ []) ∧ intPart.all Char.isDigit ∧ frac.all Char.isDigit then
        some ((digitsToNat intPart : Rat) + (digitsToNat frac : Rat) / ((10 : Rat) ^ frac.length))
      else none
  | _ => none

/-- Models the numeric parsing of a string done by Python `float(_)` and by
`pd.to_numeric(_, errors="coerce")`: an optionally signed decimal literal,
with surrounding whitespace allowed. -/
def parseNumString (s : String) : Option Rat :=
  match trimChars s.data with
  | '-' :: rest => (parseUnsignedNum rest).map (fun q => -q)
  | '+' :: rest => parseUnsignedNum rest
  | rest => parseUnsignedNum rest

/-- `pd.to_numeric(v, errors="coerce")` combined with the `notna` check of
`get_value`: numeric cells pass through, missing cells and unparseable
objects coerce to NaN, i.e. `none`. -/
def toNumeric : CellVal → Option Rat
  | .num q => some q
  | .na => none
  | .obj s => parseNumString s

/-- Models Python `str(_)` on a column label. -/
def colToString : ColKey → String
  | .str s => s
  | .int n => toString n

/-- Code-point lexicographic comparison of character lists; models Python
string ordering. -/
def charListLe : List Char → List Char → Bool
  | [], _ => true
  | _ :: _, [] => false
  | a :: as, b :: bs => if a = b then charListLe as bs else decide (a < b)

/-- Python string `<=`. -/
def pyStrLe (a b : String) : Prop := charListLe a.data b.data = true

instance : DecidableRel pyStrLe :=
  fun a b => inferInstanceAs (Decidable (charListLe a.data b.data = true))

/-- One uploaded workbook as returned by `read_financials`: the two sheets
of interest, each present or absent.  A file whose read failed is `none` at
the `FileInput` level. -/
structure SheetMap where
  income : Option DataFrame
  balance : Option DataFrame
deriving DecidableEq

/-- An input file: `none` models a read failure. -/
abbrev FileInput := Option SheetMap

/-- Column union in order of first appearance, as produced by `pd.concat`. -/
def unionCols (acc cs : List ColKey) : List ColKey :=
  acc ++ cs.filter (fun c => decide (c ∉ acc))

/-- `pd.concat` over a list of frames: columns united in order of first
appearance, rows stacked; a row lacking a column holds NaN there. -/
def concatFrames (dfs : List DataFrame) : DataFrame :=
  { cols := dfs.foldl (fun acc df => unionCols acc df.cols) [],
    rows := (dfs.map DataFrame.rows).flatten }

/-- The grouping key of a row once `fillna("").str.strip()` has run without
raising (see `fieldColAllNum` for the raising case): a missing `Field` cell
was filled with `""` and stripped to `""`; a string cell is stripped; a
numeric cell — possible only in an object-dtype or upcast-by-`fillna`
column, since the all-numeric no-NaN column raises instead — is mapped to
NaN by the elementwise `.str` accessor, and `groupby` then drops that row
(default `dropna=True`). -/
def consolKey (r : Row) : Option String :=
  match getCell r fieldKey with
  | .obj s => some (pyStrip s)
  | .na => some ""
  | .num _ => none

/-- Whether the concatenated frame's `Field` column has numeric dtype with
no missing value: there is at least one row and every row's `Field` cell is
a number.  Then `fillna("")` is a no-op (nothing to fill, no upcast to
object) and the `.str` accessor raises `AttributeError`, which the
consolidation `try` turns into the `None` outcome.  In every other shape —
empty column (object dtype as read from Excel), any string cell (object
dtype), or any NaN (which `fillna("")` replaces, upcasting to object) —
the column is object dtype and `.str.strip()` proceeds elementwise. -/
def fieldColAllNum (df : DataFrame) : Bool :=
  !df.rows.isEmpty && df.rows.all (fun r =>
    match getCell r fieldKey with
    | .num _ => true
    | _ => false)

/-- A column has numeric dtype exactly when none of its cells is a
non-numeric object. -/
def colIsNumeric (df : DataFrame) (c : ColKey) : Bool :=
  df.rows.all (fun r =>
    match getCell r c with
    | .obj _ => false
    | _ => true)

/-- The contribution of a cell to a `groupby` sum: missing cells are
skipped, i.e. contribute 0. -/
def cellNum (v : CellVal) : Rat :=
  match v with
  | .num q => q
  | _ => 0

/-- The distinct grouping keys of a frame, sorted ascending as `groupby`
sorts them (`sort=True` by default). -/
def groupKeys (df : DataFrame) : List String :=
  List.insertionSort pyStrLe (df.rows.filterMap consolKey).dedup

/-- The columns kept by `sum(numeric_only=True)`: the numeric-dtype
non-`Field` columns, in frame order. -/
def keptColsOf (df : DataFrame) : List ColKey :=
  df.cols.filter (fun c => decide (c ≠ fieldKey) && colIsNumeric df c)

/-- The `groupby` sum for one key and one column: the cells of the rows in
the key's group, missing values contributing 0. -/
def groupSum (df : DataFrame) (k : String) (c : ColKey) : Rat :=
  ((df.rows.filter (fun r => decide (consolKey r = some k))).map
    (fun r => cellNum (getCell r c))).sum

/-- One row of the grouped frame after `reset_index()`. -/
def groupRow (df : DataFrame) (k : String) : Row :=
  (fieldKey, CellVal.obj k) ::
    (keptColsOf df).map (fun c => (c, CellVal.num (groupSum df k c)))

/-- `df.groupby("Field").sum(numeric_only=True).reset_index()` applied after
the `fillna("")`/`str.strip()` normalisation of the `Field` column.  Fails
(an exception caught by the surrounding `try`) in two ways: a `KeyError`
when the concatenated data has no `Field` column, and an `AttributeError`
from the `.str` accessor when the `Field` column is numeric dtype with no
NaN (`fieldColAllNum`).  Otherwise `groupby` sorts the keys ascending and
`numeric_only=True` keeps exactly the numeric-dtype non-key columns. -/
def consolidateTable (df : DataFrame) : Option DataFrame :=
  if fieldKey ∈ df.cols then
    if fieldColAllNum df then none
    else some ⟨fieldKey :: keptColsOf df, (groupKeys df).map (groupRow df)⟩
  else none

/-- The consolidated financials: the two statements. -/
structure Financials where
  income : DataFrame
  balance : DataFrame
deriving DecidableEq

/-- The "Income Statement" sheets collected from the readable files. -/
def collectIncome (files : List FileInput) : List DataFrame :=
  files.filterMap (fun f => f.bind SheetMap.income)

/-- The "Balance Sheet" sheets collected from the readable files. -/
def collectBalance (files : List FileInput) : List DataFrame :=
  files.filterMap (fun f => f.bind SheetMap.balance)

/-- `consolidate_financials` of `financial_utils.py`: collect both sheet
kinds over all readable files, fail if either collection is empty, then
concatenate and group each statement; an exception while consolidating
(e.g. the `KeyError` for a missing `Field` column) is caught and also
yields `None`. -/
def consolidate_financials (files : List FileInput) : Option Financials :=
  let incomes := collectIncome files
  let balances := collectBalance files
  if incomes.isEmpty ∨ balances.isEmpty then none
  else
    match consolidateTable (concatFrames incomes), consolidateTable (concatFrames balances) with
    | some fi, some fb => some ⟨fi, fb⟩
    | _, _ => none

/-- `df["Field"] = df["Field"].fillna("")`: missing row labels become the
empty string; other cells are unchanged. -/
def fillnaField (df : DataFrame) : DataFrame :=
  { cols := df.cols,
    rows := df.rows.map (fun r =>
      match getCell r fieldKey with
      | .na => (fieldKey, CellVal.obj "") :: r
      | _ => r) }

/-- `get_value` of `financial_utils.py` (defined identically inside
`compute_ratios` and inside `analyze_trends`): select the rows whose
`Field` equals the label, take the first one's cell in the year column
(`match.values[0]`), coerce it to a number, and fall back to 0 when there
is no matching row or the coercion gives NaN. -/
def get_value (df : DataFrame) (fieldName : String) (year : ColKey) : Rat :=
  match df.rows.filter (fun r => decide (getCell r fieldKey = CellVal.obj fieldName)) with
  | [] => 0
  | r :: _ => (toNumeric (getCell r year)).getD 0

/-- The fiscal-year validation of `compute_ratios`: the string form of the
requested year is tried first against the columns of both statements, then
the `int(...)`-parsed form. -/
def resolveYear (income balance : DataFrame) (fiscal_year : String) : Option ColKey :=
  if ColKey.str fiscal_year ∈ income.cols ∧ ColKey.str fiscal_year ∈ balance.cols then
    some (.str fiscal_year)
  else
    match parseIntString fiscal_year with
    | some n =>
        if ColKey.int n ∈ income.cols ∧ ColKey.int n ∈ balance.cols then some (.int n)
        else none
    | none => none

/-- The body of `compute_ratios` once the year column has been resolved:
fetch the named line items and build the six guarded ratios. -/
def ratiosFor (income balance : DataFrame) (y : ColKey) : List (String × Rat) :=
  let revenue := get_value income "Revenue from operations" y
  let net_profit := get_value income "Profit/(Loss) for the year" y
  let cogs_materials := get_value income "Cost of materials consumed" y
  let cogs_purchases := get_value income "Purchases of stock-in-trade" y
  let cogs_changes :=
    get_value income "Changes in inventories of goods, work-in-progress and stock-in-trade" y
  let current_assets := get_value balance "Current assets" y
  let non_current_assets := get_value balance "Non-current assets" y
  let total_assets := current_assets + non_current_assets
  let current_liabilities := get_value balance "Current liabilities" y
  let nc_borrowings := get_value balance "Borrowings, non-current" y
  let c_borrowings := get_value balance "Borrowings, current" y
  let total_debt := nc_borrowings + c_borrowings
  let total_equity := get_value balance "Equity" y
  let inventories := get_value balance "Inventories" y
  let npMargin := if revenue ≠ 0 then net_profit / revenue else 0
  let roa := if total_assets ≠ 0 then net_profit / total_assets else 0
  let dToE := if total_equity ≠ 0 then total_debt / total_equity else 0
  let currentRt := if current_liabilities ≠ 0 then current_assets / current_liabilities else 0
  let total_cogs := cogs_materials + cogs_purchases + cogs_changes
  let gross_profit := revenue - total_cogs
  let grossMargin := if revenue ≠ 0 then gross_profit / revenue else 0
  let quick_assets := current_assets - inventories
  let quickRt := if current_liabilities ≠ 0 then quick_assets / current_liabilities else 0
  [("Net Profit Margin", npMargin),
   ("Return on Assets (ROA)", roa),
   ("Debt to Equity Ratio", dToE),
   ("Current Ratio", currentRt),
   ("Gross Margin", grossMargin),
   ("Quick Ratio", quickRt)]

/-- `compute_ratios` of `financial_utils.py`: normalise the `Field` columns
with `fillna("")`, validate the requested fiscal year, and either return
the six ratios or the empty mapping. -/
def compute_ratios (fin : Financials) (fiscal_year : String) : List (String × Rat) :=
  let income := fillnaField fin.income
  let balance := fillnaField fin.balance
  match resolveYear income balance fiscal_year with
  | some y => ratiosFor income balance y
  | none => []

/-- `dict.get(k, 0)` on a ratio / sub-score mapping. -/
def getRat (d : List (String × Rat)) (k : String) : Rat :=
  match d.find? (fun p => decide (p.1 = k)) with
  | some p => p.2
  | none => 0

/-- `score_ratios` of `financial_utils.py`. -/
def score_ratios (ratios : List (String × Rat)) : List (String × Rat) × Rat :=
  if ratios.isEmpty then ([], 0)
  else
    let sub_scores : List (String × Rat) :=
      [("Profitability",
          ((getRat ratios "Net Profit Margin") * 100 + (getRat ratios "Gross Margin") * 100) / 2),
       ("Liquidity",
          (min ((getRat ratios "Current Ratio") / 2) 1 * 100 +
              min ((getRat ratios "Quick Ratio") / 1) 1 * 100) / 2),
       ("Leverage", (1 - min ((getRat ratios "Debt to Equity Ratio") / 3) 1) * 100),
       ("Efficiency", min ((getRat ratios "Return on Assets (ROA)") / 0.1) 1 * 100)]
    (sub_scores, ((sub_scores.map Prod.snd).sum) / (sub_scores.length : Rat))

/-- One column of the trend table before transposition. -/
structure TrendEntry where
  year : ColKey
  revenue : Rat
  netProfit : Rat
  netMarginPct : Rat
deriving DecidableEq

/-- Result of `analyze_trends`: a table (possibly empty, as returned when
there are no year columns), or an uncaught exception (the `TypeError` from
`sorted` on mixed int/str labels), which the caller's `try` turns into an
error result. -/
inductive TrendResult where
  | raised
  | table (entries : List TrendEntry)
deriving DecidableEq

/-- Whether a column label is an integer. -/
def isIntCol : ColKey → Bool
  | .int _ => true
  | .str _ => false

/-- `int(str(x))` as a sort key, defaulting to 0 (only used when every
label parses). -/
def yearSortKey (c : ColKey) : Int :=
  (parseIntString (colToString c)).getD 0

/-- Comparison by the numeric sort key. -/
def pyIntKeyLe (a b : ColKey) : Prop := yearSortKey a ≤ yearSortKey b

instance : DecidableRel pyIntKeyLe :=
  fun a b => inferInstanceAs (Decidable (yearSortKey a ≤ yearSortKey b))

/-- Comparison of string labels, for the fallback `sorted(years)`. -/
def pyColStrLe (a b : ColKey) : Prop := pyStrLe (colToString a) (colToString b)

instance : DecidableRel pyColStrLe :=
  fun a b => inferInstanceAs (Decidable (pyStrLe (colToString a) (colToString b)))

/-- `sorted(years, key=lambda x: int(str(x)))` with its `except ValueError`
fallback to `sorted(years)`: when every label int-parses, a stable sort by
the parsed key; otherwise Python sorts the raw labels, which succeeds only
when they are all strings — comparing an int label with a str label raises
`TypeError`, modelled by `none`. -/
def sortYears (years : List ColKey) : Option (List ColKey) :=
  if years.all (fun c => (parseIntString (colToString c)).isSome) then
    some (List.insertionSort pyIntKeyLe years)
  else if years.all (fun c => !(isIntCol c)) then
    some (List.insertionSort pyColStrLe years)
  else none

/-- The record built by `analyze_trends` for one year column. -/
def trendEntryFor (income : DataFrame) (y : ColKey) : TrendEntry :=
  let revenue := get_value income "Revenue from operations" y
  let pat := get_value income "Profit/(Loss) for the year" y
  { year := y, revenue := revenue, netProfit := pat,
    netMarginPct := if revenue ≠ 0 then pat / revenue * 100 else 0 }

/-- `analyze_trends` of `financial_utils.py`.  The transposition and row
renaming done for presentation keep the per-year records intact, so the
result is modelled as the list of per-year entries in column order. -/
def analyze_trends (fin : Financials) : TrendResult :=
  let income := fin.income
  let years := income.cols.filter (fun c => decide (c ≠ fieldKey))
  if years.isEmpty then .table []
  else
    match sortYears years with
    | none => .raised
    | some sorted_years => .table (sorted_years.map (trendEntryFor income))

/-- The dictionary returned by `run_analysis`, with every key optional:
the code either fills `error` alone or fills all the other keys. -/
structure AnalysisResult where
  error : Option String
  ratios : Option (List (String × Rat))
  sub_scores : Option (List (String × Rat))
  overall_score : Option Rat
  trends : Option (List TrendEntry)
  ai_insights : Option String
  detected_fiscal_year : Option String
deriving DecidableEq

/-- An error-only result dictionary. -/
def errResult (msg : String) : AnalysisResult :=
  ⟨some msg, none, none, none, none, none, none⟩

def msgConsolidate : String := "Failed to read or consolidate financial data."

def msgNoYearCols : String := "No fiscal year columns found in the consolidated data."

def msgNoNumericYears : String := "Could not detect any numeric fiscal year columns."

def msgRatiosFailed : String := "Failed to compute ratios for the auto-detected year."

def msgAnalysisRaised : String := "An error occurred during analysis."

/-- The year columns of the consolidated Income Statement that
`float(str(col))` parses, paired with their parsed keys, in column order. -/
def numericYearCands (income : DataFrame) : List (Rat × ColKey) :=
  (income.cols.filter (fun c => decide (c ≠ fieldKey))).filterMap
    (fun c => (parseNumString (colToString c)).map (fun q => (q, c)))

/-- `max(numeric_years.keys())` followed by the dict lookup: building the
dict assigns later columns over earlier ones with the same key, so the
column of the last occurrence of the maximal key is selected. -/
def pickLatest (l : List (Rat × ColKey)) : Option (Rat × ColKey) :=
  l.foldl (fun acc p =>
    match acc with
    | none => some p
    | some q => if q.1 ≤ p.1 then some p else some q) none

/-- Outcome of the fiscal-year auto-detection in `run_analysis`. -/
inductive YearDetect where
  | failure (msg : String)
  | found (c : ColKey)
deriving DecidableEq

/-- The fiscal-year auto-detection block of `run_analysis`. -/
def detect_fiscal_year (income : DataFrame) : YearDetect :=
  let year_columns := income.cols.filter (fun c => decide (c ≠ fieldKey))
  if year_columns.isEmpty then .failure msgNoYearCols
  else
    match pickLatest (numericYearCands income) with
    | none => .failure msgNoNumericYears
    | some p => .found p.2

/-- The tail of `run_analysis` once the fiscal year has been detected:
compute the ratios for the detected year (failing when the mapping comes
back empty), score them, analyse the trends (an uncaught exception there is
turned into the error result by the surrounding `try`), and assemble the
response dictionary. -/
def pipelineTail (aiText : String) (fin : Financials) (col : ColKey) : AnalysisResult :=
  let detected := colToString col
  let ratios := compute_ratios fin detected
  if ratios.isEmpty then errResult msgRatiosFailed
  else
    match analyze_trends fin with
    | .raised => errResult msgAnalysisRaised
    | .table trends =>
      let scored := score_ratios ratios
      ⟨none, some ratios, some scored.1, some scored.2, some trends,
        some aiText, some detected⟩

/-- The body of `run_analysis` after a successful consolidation: fiscal
year auto-detection followed by the rest of the pipeline. -/
def pipelineAfterConsolidate (aiText : String) (fin : Financials) : AnalysisResult :=
  match detect_fiscal_year fin.income with
  | .failure msg => errResult msg
  | .found col => pipelineTail aiText fin col

/-- `run_analysis` of `analyze_financials.py`.  The external
text-generation call always returns a string (its own errors are caught
inside `generate_ai_insights`), so it is passed in as the `aiText` input.
The error messages are shortened stand-ins for the source's strings. -/
def run_analysis (aiText : String) (files : List FileInput) : AnalysisResult :=
  match consolidate_financials files with
  | none => errResult msgConsolidate
  | some fin => pipelineAfterConsolidate aiText fin

end QCA
namespace QCA

/-- A small Income Statement used as a concrete witness input. -/
def exInc : DataFrame :=
  ⟨[fieldKey, .int 2024],
   [[(fieldKey, .obj "Revenue from operations"), (.int 2024, .num 1000)],
    [(fieldKey, .obj "Profit/(Loss) for the year"), (.int 2024, .num 100)]]⟩

/-- A small Balance Sheet with zero current liabilities. -/
def exBal : DataFrame :=
  ⟨[fieldKey, .int 2024],
   [[(fieldKey, .obj "Current assets"), (.int 2024, .num 200)],
    [(fieldKey, .obj "Current liabilities"), (.int 2024, .num 0)]]⟩

/-- Consolidated financials built from the two small sheets. -/
def exFin : Financials := ⟨exInc, exBal⟩

/-- A table with two rows carrying the same Field label. -/
def dfDup : DataFrame :=
  ⟨[fieldKey, .int 2024],
   [[(fieldKey, .obj "X"), (.int 2024, .num 5)],
    [(fieldKey, .obj "X"), (.int 2024, .num 7)]]⟩

theorem getRat_cons (k2 : String) (v : Rat) (rest : List (String × Rat)) (k : String) :
    getRat ((k2, v) :: rest) k = if k2 = k then v else getRat rest k := by
  unfold getRat
  by_cases h : k2 = k <;> simp [List.find?, h]

theorem getRat_nil (k : String) : getRat [] k = 0 := rfl

/-- C2: for every non-empty ratio set, score_ratios returns exactly the four
sub-scores Profitability, Liquidity, Leverage and Efficiency computed by the
source formulas (Profitability with no clamp at either end), and an overall
score equal to the arithmetic mean of the four sub-scores. -/
theorem C2_score_ratios_formulas (d : List (String × Rat)) (h : d ≠ []) :
    (score_ratios d).1 =
      [("Profitability",
          ((getRat d "Net Profit Margin") * 100 + (getRat d "Gross Margin") * 100) / 2),
       ("Liquidity",
          (min ((getRat d "Current Ratio") / 2) 1 * 100 +
              min ((getRat d "Quick Ratio") / 1) 1 * 100) / 2),
       ("Leverage", (1 - min ((getRat d "Debt to Equity Ratio") / 3) 1) * 100),
       ("Efficiency", min ((getRat d "Return on Assets (ROA)") / 0.1) 1 * 100)] ∧
    (score_ratios d).2 =
      (getRat (score_ratios d).1 "Profitability" + getRat (score_ratios d).1 "Liquidity" +
          getRat (score_ratios d).1 "Leverage" + getRat (score_ratios d).1 "Efficiency") / 4 := by
  have hne : ¬ (d.isEmpty = true) := by simp [List.isEmpty_iff, h]
  unfold score_ratios
  rw [if_neg hne]
  refine ⟨rfl, ?_⟩
  simp [getRat, List.find?, List.sum]
  ring

/-- C2 witness: the formulas at a concrete one-entry ratio set. -/
theorem C2_score_ratios_formulas_witness :
    (score_ratios [("Net Profit Margin", (1 : Rat)/2)]).1 =
      [("Profitability",
          ((getRat [("Net Profit Margin", (1 : Rat)/2)] "Net Profit Margin") * 100 +
              (getRat [("Net Profit Margin", (1 : Rat)/2)] "Gross Margin") * 100) / 2),
       ("Liquidity",
          (min ((getRat [("Net Profit Margin", (1 : Rat)/2)] "Current Ratio") / 2) 1 * 100 +
              min ((getRat [("Net Profit Margin", (1 : Rat)/2)] "Quick Ratio") / 1) 1 * 100) / 2),
       ("Leverage",
          (1 - min ((getRat [("Net Profit Margin", (1 : Rat)/2)] "Debt to Equity Ratio") / 3) 1) * 100),
       ("Efficiency",
          min ((getRat [("Net Profit Margin", (1 : Rat)/2)] "Return on Assets (ROA)") / 0.1) 1 * 100)] :=
  (C2_score_ratios_formulas [("Net Profit Margin", (1 : Rat)/2)] (by simp)).1

/-- C3 counterexample: on the ratio set with Net Profit Margin = Gross
Margin = 10 the Profitability sub-score is 1000 and the overall score 275,
both outside the claimed interval [0, 100]. -/
theorem C3_cex_scores_unbounded :
    getRat (score_ratios [("Net Profit Margin", 10), ("Gross Margin", 10)]).1 "Profitability" = 1000 ∧
    ¬ getRat (score_ratios [("Net Profit Margin", 10), ("Gross Margin", 10)]).1 "Profitability" ≤ 100 ∧
    (score_ratios [("Net Profit Margin", 10), ("Gross Margin", 10)]).2 = 275 ∧
    ¬ (score_ratios [("Net Profit Margin", 10), ("Gross Margin", 10)]).2 ≤ 100 := by
  refine ⟨?_, ?_, ?_, ?_⟩ <;>
    simp [score_ratios, getRat_cons, getRat_nil, min_def] <;>
    norm_num

/-- C3 amended: Liquidity and Efficiency never exceed 100 and Leverage is
never below 0; Leverage stays at most 100 whenever the Debt to Equity ratio
is nonnegative; the Profitability sub-score and the overall score are not
bounded by [0, 100] (see the counterexample), and sub-scores other than
Leverage are not clamped below 0. -/
theorem C3_amended_subscore_bounds (d : List (String × Rat)) :
    getRat (score_ratios d).1 "Liquidity" ≤ 100 ∧
    getRat (score_ratios d).1 "Efficiency" ≤ 100 ∧
    0 ≤ getRat (score_ratios d).1 "Leverage" ∧
    (0 ≤ getRat d "Debt to Equity Ratio" → getRat (score_ratios d).1 "Leverage" ≤ 100) := by
  by_cases h : d.isEmpty = true
  · unfold score_ratios
    rw [if_pos h]
    norm_num [getRat_nil]
  · unfold score_ratios
    rw [if_neg h]
    simp [getRat_cons, getRat_nil]
    refine ⟨?_, fun hd => by positivity⟩
    have h1 := min_le_right ((getRat d "Current Ratio") / 2) (1 : Rat)
    have h2 := min_le_right (getRat d "Quick Ratio") (1 : Rat)
    linarith

/-- C3 amended witness: the conditional Leverage bound discharged at a
concrete ratio set with nonnegative Debt to Equity. -/
theorem C3_amended_subscore_bounds_witness :
    (0 : Rat) ≤ getRat [("Debt to Equity Ratio", (1 : Rat))] "Debt to Equity Ratio" ∧
    getRat (score_ratios [("Debt to Equity Ratio", (1 : Rat))]).1 "Leverage" ≤ 100 :=
  ⟨by simp [getRat_cons, getRat_nil],
   (C3_amended_subscore_bounds [("Debt to Equity Ratio", (1 : Rat))]).2.2.2
     (by simp [getRat_cons, getRat_nil])⟩

/-- C7 counterexample: with two rows whose Field is exactly "X", the row
lookup returns the first row's value 5 rather than the claimed 0. -/
theorem C7_cex_duplicate_rows :
    get_value dfDup "X" (.int 2024) = 5 ∧ get_value dfDup "X" (.int 2024) ≠ 0 := by
  constructor
  · rfl
  · decide

/-- C7 amended: the row lookup selects the rows whose Field exactly equals
the label; with no match it returns 0, and otherwise it returns the first
matching row's cell in the year column coerced to a number, with 0 for a
missing or non-numeric cell — it never fails, only degrades to 0 or to the
first match. -/
theorem C7_amended_get_value_first_match (df : DataFrame) (name : String) (y : ColKey) :
    (df.rows.filter (fun r => decide (getCell r fieldKey = CellVal.obj name)) = [] →
        get_value df name y = 0) ∧
    (∀ r rest,
        df.rows.filter (fun r => decide (getCell r fieldKey = CellVal.obj name)) = r :: rest →
          get_value df name y = (toNumeric (getCell r y)).getD 0) := by
  constructor
  · intro h
    unfold get_value
    rw [h]
  · intro r rest h
    unfold get_value
    rw [h]

/-- C7 amended witness: the first-match rule evaluated on the duplicate-row
table. -/
theorem C7_amended_get_value_first_match_witness :
    get_value dfDup "X" (.int 2024) =
      (toNumeric (getCell [(fieldKey, CellVal.obj "X"), (.int 2024, CellVal.num 5)] (.int 2024))).getD 0 :=
  (C7_amended_get_value_first_match dfDup "X" (.int 2024)).2
    [(fieldKey, .obj "X"), (.int 2024, .num 5)]
    [[(fieldKey, .obj "X"), (.int 2024, .num 7)]] (by decide)

end QCA
namespace QCA

theorem fillnaField_cols (df : DataFrame) : (fillnaField df).cols = df.cols := rfl

theorem ratiosFor_ne_nil (income balance : DataFrame) (y : ColKey) :
    ratiosFor income balance y ≠ [] := by
  simp [ratiosFor]

theorem resolveYear_str (income balance : DataFrame) (fy : String)
    (h : ColKey.str fy ∈ income.cols ∧ ColKey.str fy ∈ balance.cols) :
    resolveYear income balance fy = some (.str fy) := by
  unfold resolveYear
  rw [if_pos h]

theorem resolveYear_int (income balance : DataFrame) (fy : String) (n : Int)
    (hs : ¬ (ColKey.str fy ∈ income.cols ∧ ColKey.str fy ∈ balance.cols))
    (hp : parseIntString fy = some n)
    (hi : ColKey.int n ∈ income.cols ∧ ColKey.int n ∈ balance.cols) :
    resolveYear income balance fy = some (.int n) := by
  unfold resolveYear
  rw [if_neg hs, hp]
  exact if_pos hi

theorem resolveYear_fail (income balance : DataFrame) (fy : String)
    (hs : ¬ (ColKey.str fy ∈ income.cols ∧ ColKey.str fy ∈ balance.cols))
    (hi : ∀ n, parseIntString fy = some n →
      ¬ (ColKey.int n ∈ income.cols ∧ ColKey.int n ∈ balance.cols)) :
    resolveYear income balance fy = none := by
  unfold resolveYear
  rw [if_neg hs]
  cases hp : parseIntString fy with
  | none => rfl
  | some n => exact if_neg (hi n hp)

theorem compute_ratios_eq (fin : Financials) (fy : String) :
    compute_ratios fin fy =
      match resolveYear (fillnaField fin.income) (fillnaField fin.balance) fy with
      | some y => ratiosFor (fillnaField fin.income) (fillnaField fin.balance) y
      | none => [] := rfl

theorem compute_ratios_some (fin : Financials) (fy : String) (y : ColKey)
    (h : resolveYear (fillnaField fin.income) (fillnaField fin.balance) fy = some y) :
    compute_ratios fin fy = ratiosFor (fillnaField fin.income) (fillnaField fin.balance) y := by
  rw [compute_ratios_eq, h]

theorem compute_ratios_none (fin : Financials) (fy : String)
    (h : resolveYear (fillnaField fin.income) (fillnaField fin.balance) fy = none) :
    compute_ratios fin fy = [] := by
  rw [compute_ratios_eq, h]

/-- C1: whenever the requested fiscal year resolves to a column of both
statements, compute_ratios returns exactly the six ratio keys, each a total
rational value (no division error can occur), the six values being the
stated quotients with 0 whenever the respective denominator is 0. -/
theorem C1_ratio_formulas (fin : Financials) (fy : String) (y : ColKey)
    (h : resolveYear fin.income fin.balance fy = some y) :
    compute_ratios fin fy =
      [("Net Profit Margin",
          if get_value (fillnaField fin.income) "Revenue from operations" y = 0 then 0
          else get_value (fillnaField fin.income) "Profit/(Loss) for the year" y /
            get_value (fillnaField fin.income) "Revenue from operations" y),
       ("Return on Assets (ROA)",
          if get_value (fillnaField fin.balance) "Current assets" y +
              get_value (fillnaField fin.balance) "Non-current assets" y = 0 then 0
          else get_value (fillnaField fin.income) "Profit/(Loss) for the year" y /
            (get_value (fillnaField fin.balance) "Current assets" y +
              get_value (fillnaField fin.balance) "Non-current assets" y)),
       ("Debt to Equity Ratio",
          if get_value (fillnaField fin.balance) "Equity" y = 0 then 0
          else (get_value (fillnaField fin.balance) "Borrowings, non-current" y +
              get_value (fillnaField fin.balance) "Borrowings, current" y) /
            get_value (fillnaField fin.balance) "Equity" y),
       ("Current Ratio",
          if get_value (fillnaField fin.balance) "Current liabilities" y = 0 then 0
          else get_value (fillnaField fin.balance) "Current assets" y /
            get_value (fillnaField fin.balance) "Current liabilities" y),
       ("Gross Margin",
          if get_value (fillnaField fin.income) "Revenue from operations" y = 0 then 0
          else (get_value (fillnaField fin.income) "Revenue from operations" y -
              (get_value (fillnaField fin.income) "Cost of materials consumed" y +
                get_value (fillnaField fin.income) "Purchases of stock-in-trade" y +
                get_value (fillnaField fin.income)
                  "Changes in inventories of goods, work-in-progress and stock-in-trade" y)) /
            get_value (fillnaField fin.income) "Revenue from operations" y),
       ("Quick Ratio",
          if get_value (fillnaField fin.balance) "Current liabilities" y = 0 then 0
          else (get_value (fillnaField fin.balance) "Current assets" y -
              get_value (fillnaField fin.balance) "Inventories" y) /
            get_value (fillnaField fin.balance) "Current liabilities" y)] := by
  rw [compute_ratios_some fin fy y h]
  unfold ratiosFor
  rcases eq_or_ne (get_value (fillnaField fin.income) "Revenue from operations" y) 0 with h3 | h3 <;>
  rcases eq_or_ne (get_value (fillnaField fin.balance) "Current assets" y +
      get_value (fillnaField fin.balance) "Non-current assets" y) 0 with h4 | h4 <;>
  rcases eq_or_ne (get_value (fillnaField fin.balance) "Equity" y) 0 with h5 | h5 <;>
  rcases eq_or_ne (get_value (fillnaField fin.balance) "Current liabilities" y) 0 with h6 | h6 <;>
  simp [h3, h4, h5, h6]

/-- C1 witness: the concrete scenario with Revenue 1000, Profit 100,
Current assets 200 and Current liabilities 0 for year column 2024: all six
keys present, Net Profit Margin 1/10 and Current Ratio 0 without any
division error. -/
theorem C1_ratio_formulas_witness :
    compute_ratios exFin "2024" =
      [("Net Profit Margin", 1/10), ("Return on Assets (ROA)", 1/2),
       ("Debt to Equity Ratio", 0), ("Current Ratio", 0),
       ("Gross Margin", 1), ("Quick Ratio", 0)] := by
  rw [C1_ratio_formulas exFin "2024" (.int 2024) (by decide)]
  have e1 : get_value (fillnaField exFin.income) "Revenue from operations" (.int 2024) = 1000 := by
    decide
  have e2 : get_value (fillnaField exFin.income) "Profit/(Loss) for the year" (.int 2024) = 100 := by
    decide
  have e3 : get_value (fillnaField exFin.income) "Cost of materials consumed" (.int 2024) = 0 := by
    decide
  have e4 : get_value (fillnaField exFin.income) "Purchases of stock-in-trade" (.int 2024) = 0 := by
    decide
  have e5 : get_value (fillnaField exFin.income)
      "Changes in inventories of goods, work-in-progress and stock-in-trade" (.int 2024) = 0 := by
    decide
  have e6 : get_value (fillnaField exFin.balance) "Current assets" (.int 2024) = 200 := by decide
  have e7 : get_value (fillnaField exFin.balance) "Non-current assets" (.int 2024) = 0 := by decide
  have e8 : get_value (fillnaField exFin.balance) "Current liabilities" (.int 2024) = 0 := by decide
  have e9 : get_value (fillnaField exFin.balance) "Borrowings, non-current" (.int 2024) = 0 := by
    decide
  have e10 : get_value (fillnaField exFin.balance) "Borrowings, current" (.int 2024) = 0 := by
    decide
  have e11 : get_value (fillnaField exFin.balance) "Equity" (.int 2024) = 0 := by decide
  have e12 : get_value (fillnaField exFin.balance) "Inventories" (.int 2024) = 0 := by decide
  rw [e1, e2, e3, e4, e5, e6, e7, e8, e9, e10, e11, e12]
  norm_num

/-- C4: compute_ratios returns the empty ratio set exactly when neither the
string form nor the int-parsed form of the requested year is a column of
both statements; when the string form is a column of both it computes from
the string column, and otherwise, when the int-parsed form is a column of
both, from the int column (so an integer column 2024 queried as "2024"
resolves to the same column). -/
theorem C4_year_resolution (fin : Financials) (fy : String) :
    (compute_ratios fin fy = [] ↔
      ¬ ((ColKey.str fy ∈ fin.income.cols ∧ ColKey.str fy ∈ fin.balance.cols) ∨
         (∃ n, parseIntString fy = some n ∧ ColKey.int n ∈ fin.income.cols ∧
            ColKey.int n ∈ fin.balance.cols))) ∧
    ((ColKey.str fy ∈ fin.income.cols ∧ ColKey.str fy ∈ fin.balance.cols) →
        compute_ratios fin fy =
          ratiosFor (fillnaField fin.income) (fillnaField fin.balance) (.str fy)) ∧
    (∀ n, ¬ (ColKey.str fy ∈ fin.income.cols ∧ ColKey.str fy ∈ fin.balance.cols) →
        parseIntString fy = some n → ColKey.int n ∈ fin.income.cols →
        ColKey.int n ∈ fin.balance.cols →
        compute_ratios fin fy =
          ratiosFor (fillnaField fin.income) (fillnaField fin.balance) (.int n)) := by
  by_cases hs : ColKey.str fy ∈ fin.income.cols ∧ ColKey.str fy ∈ fin.balance.cols
  · have hc := compute_ratios_some fin fy (.str fy) (resolveYear_str _ _ _ hs)
    refine ⟨?_, fun _ => hc, fun n hns _ _ _ => absurd hs hns⟩
    rw [hc]
    exact ⟨fun he => absurd he (ratiosFor_ne_nil _ _ _), fun hn => (hn (Or.inl hs)).elim⟩
  · cases hp : parseIntString fy with
    | none =>
      have hc := compute_ratios_none fin fy
        (resolveYear_fail _ _ _ hs (fun n hn => by rw [hp] at hn; cases hn))
      refine ⟨?_, fun hs2 => absurd hs2 hs, fun n _ hpn => by cases hpn⟩
      rw [hc]
      refine ⟨fun _ => ?_, fun _ => rfl⟩
      rintro (hstr | ⟨n, hn, _⟩)
      · exact hs hstr
      · cases hn
    | some n =>
      by_cases hi : ColKey.int n ∈ fin.income.cols ∧ ColKey.int n ∈ fin.balance.cols
      · have hc := compute_ratios_some fin fy (.int n) (resolveYear_int _ _ _ n hs hp hi)
        refine ⟨?_, fun hs2 => absurd hs2 hs, fun m _ hpm him hbm => ?_⟩
        · rw [hc]
          exact ⟨fun he => absurd he (ratiosFor_ne_nil _ _ _),
            fun hn => (hn (Or.inr ⟨n, rfl, hi⟩)).elim⟩
        · cases hpm
          exact hc
      · have hc := compute_ratios_none fin fy
          (resolveYear_fail _ _ _ hs
            (fun m hm => by rw [hp] at hm; cases hm; exact hi))
        refine ⟨?_, fun hs2 => absurd hs2 hs, fun m _ hpm him hbm => ?_⟩
        · rw [hc]
          refine ⟨fun _ => ?_, fun _ => rfl⟩
          rintro (hstr | ⟨m, hm, him, hbm⟩)
          · exact hs hstr
          · cases hm
            exact hi ⟨him, hbm⟩
        · cases hpm
          exact absurd ⟨him, hbm⟩ hi

/-- C4 witness: the year column stored as integer 2024 but queried as the
string "2024" resolves to the integer column. -/
theorem C4_year_resolution_witness :
    compute_ratios exFin "2024" =
      ratiosFor (fillnaField exFin.income) (fillnaField exFin.balance) (.int 2024) :=
  (C4_year_resolution exFin "2024").2.2 2024 (by decide) (by decide) (by decide) (by decide)

end QCA
namespace QCA

theorem charListLe_total : ∀ as bs : List Char, charListLe as bs = true ∨ charListLe bs as = true
  | [], _ => Or.inl rfl
  | _ :: _, [] => Or.inr rfl
  | a :: as, b :: bs => by
    by_cases h : a = b
    · subst h
      simpa [charListLe] using charListLe_total as bs
    · have h2 : ¬ b = a := fun e => h e.symm
      rcases lt_or_gt_of_ne h with hlt | hgt
      · left
        simp [charListLe, h, hlt]
      · right
        simp [charListLe, h2, hgt]

theorem charListLe_trans : ∀ as bs cs : List Char,
    charListLe as bs = true → charListLe bs cs = true → charListLe as cs = true
  | [], _, _, _, _ => rfl
  | _ :: _, [], _, h1, _ => by simp [charListLe] at h1
  | _ :: _, _ :: _, [], _, h2 => by simp [charListLe] at h2
  | a :: as, b :: bs, c :: cs, h1, h2 => by
    simp only [charListLe] at h1 h2 ⊢
    by_cases hab : a = b
    · subst hab
      rw [if_pos rfl] at h1
      by_cases hac : a = c
      · subst hac
        rw [if_pos rfl] at h2 ⊢
        exact charListLe_trans as bs cs h1 h2
      · rw [if_neg hac] at h2 ⊢
        exact h2
    · rw [if_neg hab] at h1
      have hlt1 : a < b := of_decide_eq_true h1
      by_cases hbc : b = c
      · subst hbc
        rw [if_neg hab]
        exact h1
      · rw [if_neg hbc] at h2
        have hlt2 : b < c := of_decide_eq_true h2
        have hac : a < c := lt_trans hlt1 hlt2
        rw [if_neg (ne_of_lt hac)]
        exact decide_eq_true hac

theorem charListLe_antisymm : ∀ as bs : List Char,
    charListLe as bs = true → charListLe bs as = true → as = bs
  | [], [], _, _ => rfl
  | [], _ :: _, _, h2 => by simp [charListLe] at h2
  | _ :: _, [], h1, _ => by simp [charListLe] at h1
  | a :: as, b :: bs, h1, h2 => by
    simp only [charListLe] at h1 h2
    by_cases hab : a = b
    · subst hab
      rw [if_pos rfl] at h1 h2
      rw [charListLe_antisymm as bs h1 h2]
    · have hba : ¬ b = a := fun e => hab e.symm
      rw [if_neg hab] at h1
      rw [if_neg hba] at h2
      have l1 : a < b := of_decide_eq_true h1
      have l2 : b < a := of_decide_eq_true h2
      exact absurd l1 (lt_asymm l2)

instance : IsTotal String pyStrLe :=
  ⟨fun a b => charListLe_total a.data b.data⟩

instance : IsTrans String pyStrLe :=
  ⟨fun _ _ _ h1 h2 => charListLe_trans _ _ _ h1 h2⟩

instance : IsAntisymm String pyStrLe :=
  ⟨fun a b h1 h2 => by
    cases a
    cases b
    exact congrArg String.mk (charListLe_antisymm _ _ h1 h2)⟩

instance : IsTotal ColKey pyIntKeyLe := ⟨fun _ _ => le_total _ _⟩

instance : IsTrans ColKey pyIntKeyLe := ⟨fun _ _ _ => le_trans⟩

instance : IsTotal ColKey pyColStrLe := ⟨fun a b => total_of pyStrLe _ _⟩

instance : IsTrans ColKey pyColStrLe :=
  ⟨fun _ _ _ h1 h2 => trans_of pyStrLe h1 h2⟩

/-- A consolidated-shape financials whose Income Statement carries one
integer year column and one non-numeric string year column. -/
def finMixed : Financials :=
  ⟨⟨[fieldKey, .int 2024, .str "FY23"],
    [[(fieldKey, .obj "Revenue from operations"), (.int 2024, .num 10), (.str "FY23", .num 20)]]⟩,
   ⟨[fieldKey, .int 2024], [[(fieldKey, .obj "Equity"), (.int 2024, .num 1)]]⟩⟩

/-- Financials with all-integer year columns listed out of order. -/
def finNum : Financials :=
  ⟨⟨[fieldKey, .int 2023, .int 2021, .int 2022],
    [[(fieldKey, .obj "Revenue from operations"), (.int 2023, .num 3), (.int 2021, .num 1),
      (.int 2022, .num 2)]]⟩,
   ⟨[fieldKey, .int 2023], [[(fieldKey, .obj "Equity"), (.int 2023, .num 1)]]⟩⟩

/-- C8 counterexample: with the year labels [int 2024, "FY23"], one label
fails to int-parse, and instead of producing the columns in ascending
string order the code's fallback `sorted(years)` compares an int label
with a str label and raises (the pipeline then reports an error). -/
theorem C8_cex_mixed_labels_raise : analyze_trends finMixed = .raised := by decide

/-- C8 amended: analyze_trends sorts the year columns by attempting to
int-parse every label: when all labels parse, the columns appear in
ascending order of the parsed keys; when some label fails to parse and all
labels are strings, they appear in ascending lexicographic order; but when
some label fails to parse and an integer label is also present, the
fallback sort raises and no trend table is produced.  An empty label list
yields the empty table. -/
theorem C8_amended_trend_year_order (fin : Financials) :
    (fin.income.cols.filter (fun c => decide (c ≠ fieldKey)) = [] →
        analyze_trends fin = .table []) ∧
    ((fin.income.cols.filter (fun c => decide (c ≠ fieldKey))).all
        (fun c => (parseIntString (colToString c)).isSome) = true →
      ∃ l, analyze_trends fin = .table l ∧
        (l.map TrendEntry.year).Perm (fin.income.cols.filter (fun c => decide (c ≠ fieldKey))) ∧
        (l.map TrendEntry.year).Pairwise pyIntKeyLe) ∧
    ((fin.income.cols.filter (fun c => decide (c ≠ fieldKey))).all
        (fun c => (parseIntString (colToString c)).isSome) = false →
      (fin.income.cols.filter (fun c => decide (c ≠ fieldKey))).all
        (fun c => !(isIntCol c)) = true →
      ∃ l, analyze_trends fin = .table l ∧
        (l.map TrendEntry.year).Perm (fin.income.cols.filter (fun c => decide (c ≠ fieldKey))) ∧
        (l.map TrendEntry.year).Pairwise pyColStrLe) ∧
    ((fin.income.cols.filter (fun c => decide (c ≠ fieldKey))).all
        (fun c => (parseIntString (colToString c)).isSome) = false →
      (fin.income.cols.filter (fun c => decide (c ≠ fieldKey))).all
        (fun c => !(isIntCol c)) = false →
      analyze_trends fin = .raised) := by
  simp only [analyze_trends]
  refine ⟨?_, ?_, ?_, ?_⟩
  · intro h
    rw [h]
    rfl
  · intro hall
    by_cases he : (fin.income.cols.filter (fun c => decide (c ≠ fieldKey))).isEmpty = true
    · rw [if_pos he]
      have he2 : fin.income.cols.filter (fun c => decide (c ≠ fieldKey)) = [] := by
        simpa using he
      rw [he2]
      exact ⟨[], rfl, List.Perm.nil, List.Pairwise.nil⟩
    · rw [if_neg he]
      simp only [sortYears]
      rw [if_pos hall]
      refine ⟨_, rfl, ?_, ?_⟩
      · rw [List.map_map]
        have h2 : (TrendEntry.year ∘ trendEntryFor fin.income) = id := rfl
        rw [h2, List.map_id]
        exact List.perm_insertionSort _ _
      · rw [List.map_map]
        have h2 : (TrendEntry.year ∘ trendEntryFor fin.income) = id := rfl
        rw [h2, List.map_id]
        exact List.sorted_insertionSort pyIntKeyLe _
  · intro hall hstr
    by_cases he : (fin.income.cols.filter (fun c => decide (c ≠ fieldKey))).isEmpty = true
    · rw [if_pos he]
      have he2 : fin.income.cols.filter (fun c => decide (c ≠ fieldKey)) = [] := by
        simpa using he
      rw [he2]
      exact ⟨[], rfl, List.Perm.nil, List.Pairwise.nil⟩
    · rw [if_neg he]
      simp only [sortYears]
      rw [hall, if_neg (by simp), if_pos hstr]
      refine ⟨_, rfl, ?_, ?_⟩
      · rw [List.map_map]
        have h2 : (TrendEntry.year ∘ trendEntryFor fin.income) = id := rfl
        rw [h2, List.map_id]
        exact List.perm_insertionSort _ _
      · rw [List.map_map]
        have h2 : (TrendEntry.year ∘ trendEntryFor fin.income) = id := rfl
        rw [h2, List.map_id]
        exact List.sorted_insertionSort pyColStrLe _
  · intro hall hstr
    have he : ¬ ((fin.income.cols.filter (fun c => decide (c ≠ fieldKey))).isEmpty = true) := by
      intro he
      have he2 : fin.income.cols.filter (fun c => decide (c ≠ fieldKey)) = [] := by
        simpa using he
      rw [he2] at hall
      simp at hall
    rw [if_neg he]
    simp only [sortYears]
    rw [hall, if_neg (by simp), hstr, if_neg (by simp)]

/-- C8 amended witness: the all-numeric header case [2023, 2021, 2022]
produces a trend table whose columns are a permutation of the headers in
ascending parsed order. -/
theorem C8_amended_trend_year_order_witness :
    ∃ l, analyze_trends finNum = .table l ∧
      (l.map TrendEntry.year).Perm (finNum.income.cols.filter (fun c => decide (c ≠ fieldKey))) ∧
      (l.map TrendEntry.year).Pairwise pyIntKeyLe :=
  (C8_amended_trend_year_order finNum).2.1 (by decide)

end QCA
namespace QCA

theorem pickFold_some : ∀ (l : List (Rat × ColKey)) (q : Rat × ColKey),
    ∃ r, l.foldl (fun acc p =>
        match acc with
        | none => some p
        | some q2 => if q2.1 ≤ p.1 then some p else some q2) (some q) = some r ∧
      (r = q ∨ r ∈ l) ∧ q.1 ≤ r.1 ∧ ∀ p ∈ l, p.1 ≤ r.1
  | [], q => ⟨q, rfl, Or.inl rfl, le_refl _, by simp⟩
  | p :: l, q => by
    by_cases h : q.1 ≤ p.1
    · obtain ⟨r, h1, h2, h3, h4⟩ := pickFold_some l p
      refine ⟨r, ?_, ?_, le_trans h h3, ?_⟩
      · simpa [List.foldl_cons, if_pos h] using h1
      · rcases h2 with h2 | h2
        · exact Or.inr (h2 ▸ List.mem_cons_self _ _)
        · exact Or.inr (List.mem_cons_of_mem _ h2)
      · intro x hx
        rcases List.mem_cons.mp hx with hx | hx
        · exact hx ▸ h3
        · exact h4 x hx
    · obtain ⟨r, h1, h2, h3, h4⟩ := pickFold_some l q
      refine ⟨r, ?_, ?_, h3, ?_⟩
      · simpa [List.foldl_cons, if_neg h] using h1
      · rcases h2 with h2 | h2
        · exact Or.inl h2
        · exact Or.inr (List.mem_cons_of_mem _ h2)
      · intro x hx
        rcases List.mem_cons.mp hx with hx | hx
        · exact hx ▸ le_trans (le_of_not_le h) h3
        · exact h4 x hx

theorem pickLatest_nil : pickLatest [] = none := rfl

theorem pickLatest_cons_some (p : Rat × ColKey) (l : List (Rat × ColKey)) :
    ∃ r, pickLatest (p :: l) = some r ∧ r ∈ p :: l ∧ ∀ x ∈ p :: l, x.1 ≤ r.1 := by
  obtain ⟨r, h1, h2, h3, h4⟩ := pickFold_some l p
  refine ⟨r, h1, ?_, ?_⟩
  · rcases h2 with h2 | h2
    · exact h2 ▸ List.mem_cons_self _ _
    · exact List.mem_cons_of_mem _ h2
  · intro x hx
    rcases List.mem_cons.mp hx with hx | hx
    · exact hx ▸ h3
    · exact h4 x hx

theorem pickLatest_spec (l : List (Rat × ColKey)) (k : Rat) (c : ColKey)
    (h : pickLatest l = some (k, c)) :
    (k, c) ∈ l ∧ ∀ p ∈ l, p.1 ≤ k := by
  cases l with
  | nil => cases h
  | cons p l =>
    obtain ⟨r, h1, h2, h3⟩ := pickLatest_cons_some p l
    rw [h] at h1
    cases h1
    exact ⟨h2, h3⟩

theorem run_analysis_none (ai : String) (files : List FileInput)
    (h : consolidate_financials files = none) :
    run_analysis ai files = errResult msgConsolidate := by
  unfold run_analysis
  rw [h]

theorem run_analysis_some (ai : String) (files : List FileInput) (fin : Financials)
    (h : consolidate_financials files = some fin) :
    run_analysis ai files = pipelineAfterConsolidate ai fin := by
  unfold run_analysis
  rw [h]

theorem pipelineAfterConsolidate_fail (ai : String) (fin : Financials) (msg : String)
    (h : detect_fiscal_year fin.income = .failure msg) :
    pipelineAfterConsolidate ai fin = errResult msg := by
  unfold pipelineAfterConsolidate
  rw [h]

theorem pipelineAfterConsolidate_found (ai : String) (fin : Financials) (col : ColKey)
    (h : detect_fiscal_year fin.income = .found col) :
    pipelineAfterConsolidate ai fin = pipelineTail ai fin col := by
  unfold pipelineAfterConsolidate
  rw [h]

theorem pipelineTail_eq (ai : String) (fin : Financials) (col : ColKey) :
    pipelineTail ai fin col =
      if (compute_ratios fin (colToString col)).isEmpty then errResult msgRatiosFailed
      else
        match analyze_trends fin with
        | .raised => errResult msgAnalysisRaised
        | .table trends =>
          ⟨none, some (compute_ratios fin (colToString col)),
            some (score_ratios (compute_ratios fin (colToString col))).1,
            some (score_ratios (compute_ratios fin (colToString col))).2,
            some trends, some ai, some (colToString col)⟩ := rfl

theorem numericYearCands_nil_of_cols_nil (income : DataFrame)
    (h : income.cols.filter (fun c => decide (c ≠ fieldKey)) = []) :
    numericYearCands income = [] := by
  unfold numericYearCands
  rw [h]
  rfl

/-- C9: run_analysis auto-detects the fiscal year as the maximum over the
float-parseable Income Statement year columns (unparseable columns are
skipped), failing when none parses; and every failing stage yields a
result carrying only an error message, with no ratios, sub-scores, overall
score, trends, insight text or fiscal year populated. -/
theorem C9_orchestrator_detection_and_errors (ai : String) (files : List FileInput) :
    ((run_analysis ai files).error.isSome →
      (run_analysis ai files).ratios = none ∧ (run_analysis ai files).sub_scores = none ∧
      (run_analysis ai files).overall_score = none ∧ (run_analysis ai files).trends = none ∧
      (run_analysis ai files).ai_insights = none ∧
      (run_analysis ai files).detected_fiscal_year = none) ∧
    (∀ fin, consolidate_financials files = some fin →
      (numericYearCands fin.income = [] →
        ∃ msg, detect_fiscal_year fin.income = .failure msg ∧
          run_analysis ai files = errResult msg) ∧
      (∀ k c, pickLatest (numericYearCands fin.income) = some (k, c) →
        ((k, c) ∈ numericYearCands fin.income ∧
            ∀ p ∈ numericYearCands fin.income, p.1 ≤ k) ∧
        detect_fiscal_year fin.income = .found c ∧
        ((run_analysis ai files).error = none →
          (run_analysis ai files).detected_fiscal_year = some (colToString c) ∧
          (run_analysis ai files).ratios = some (compute_ratios fin (colToString c))))) := by
  constructor
  · cases hc : consolidate_financials files with
    | none =>
      rw [run_analysis_none ai files hc]
      intro _
      exact ⟨rfl, rfl, rfl, rfl, rfl, rfl⟩
    | some fin =>
      rw [run_analysis_some ai files fin hc]
      cases hd : detect_fiscal_year fin.income with
      | failure msg =>
        rw [pipelineAfterConsolidate_fail ai fin msg hd]
        intro _
        exact ⟨rfl, rfl, rfl, rfl, rfl, rfl⟩
      | found col =>
        rw [pipelineAfterConsolidate_found ai fin col hd, pipelineTail_eq]
        by_cases hr : (compute_ratios fin (colToString col)).isEmpty = true
        · rw [if_pos hr]
          intro _
          exact ⟨rfl, rfl, rfl, rfl, rfl, rfl⟩
        · rw [if_neg hr]
          cases ht : analyze_trends fin with
          | raised =>
            intro _
            exact ⟨rfl, rfl, rfl, rfl, rfl, rfl⟩
          | table trends =>
            intro hmm
            simp at hmm
  · intro fin hc
    constructor
    · intro hcand
      by_cases he : (List.filter (fun c => decide (c ≠ fieldKey)) fin.income.cols).isEmpty = true
      · have hd : detect_fiscal_year fin.income = .failure msgNoYearCols := by
          simp only [detect_fiscal_year]
          rw [if_pos he]
        exact ⟨msgNoYearCols, hd, by
          rw [run_analysis_some ai files fin hc, pipelineAfterConsolidate_fail ai fin _ hd]⟩
      · have hd : detect_fiscal_year fin.income = .failure msgNoNumericYears := by
          simp only [detect_fiscal_year]
          rw [if_neg he, hcand, pickLatest_nil]
        exact ⟨msgNoNumericYears, hd, by
          rw [run_analysis_some ai files fin hc, pipelineAfterConsolidate_fail ai fin _ hd]⟩
    · intro k c hpick
      have hmax := pickLatest_spec _ k c hpick
      have he : ¬ ((List.filter (fun c => decide (c ≠ fieldKey)) fin.income.cols).isEmpty = true) := by
        intro he
        have h2 : fin.income.cols.filter (fun c => decide (c ≠ fieldKey)) = [] := by
          simpa using he
        rw [numericYearCands_nil_of_cols_nil fin.income h2, pickLatest_nil] at hpick
        cases hpick
      have hd : detect_fiscal_year fin.income = .found c := by
        simp only [detect_fiscal_year]
        rw [if_neg he, hpick]
      refine ⟨hmax, hd, ?_⟩
      rw [run_analysis_some ai files fin hc, pipelineAfterConsolidate_found ai fin c hd,
        pipelineTail_eq]
      by_cases hr : (compute_ratios fin (colToString c)).isEmpty = true
      · rw [if_pos hr]
        intro hmm
        simp [errResult] at hmm
      · rw [if_neg hr]
        cases ht : analyze_trends fin with
        | raised =>
          intro hmm
          simp [errResult] at hmm
        | table trends =>
          intro _
          exact ⟨rfl, rfl⟩

/-- C9 witness: on a concrete single-file input the detection hypotheses
are discharged at the parsed candidate list, whose maximal key 2024 belongs
to the integer 2024 column; the pipeline succeeds and the result carries
that detected year and the computed ratios. -/
def exConsolFin : Financials :=
  ⟨⟨[fieldKey, .int 2024],
    [[(fieldKey, .obj "Profit/(Loss) for the year"), (.int 2024, .num 100)],
     [(fieldKey, .obj "Revenue from operations"), (.int 2024, .num 1000)]]⟩,
   ⟨[fieldKey, .int 2024],
    [[(fieldKey, .obj "Current assets"), (.int 2024, .num 200)],
     [(fieldKey, .obj "Current liabilities"), (.int 2024, .num 0)]]⟩⟩

theorem C9_orchestrator_detection_and_errors_witness :
    ((2024, ColKey.int 2024) ∈ numericYearCands exConsolFin.income ∧
        ∀ p ∈ numericYearCands exConsolFin.income, p.1 ≤ 2024) ∧
    detect_fiscal_year exConsolFin.income = .found (ColKey.int 2024) ∧
    ((run_analysis "advice" [some ⟨some exInc, some exBal⟩]).error = none →
      (run_analysis "advice" [some ⟨some exInc, some exBal⟩]).detected_fiscal_year =
          some (colToString (ColKey.int 2024)) ∧
      (run_analysis "advice" [some ⟨some exInc, some exBal⟩]).ratios =
          some (compute_ratios exConsolFin (colToString (ColKey.int 2024)))) :=
  ((C9_orchestrator_detection_and_errors "advice" [some ⟨some exInc, some exBal⟩]).2
    exConsolFin (by
      simp [consolidate_financials, collectIncome, collectBalance, concatFrames, unionCols,
        consolidateTable, fieldColAllNum, groupKeys, keptColsOf, groupSum, groupRow, consolKey, colIsNumeric,
        cellNum, getCell, pyStrip, trimChars, List.insertionSort, List.orderedInsert, pyStrLe,
        charListLe, List.dedup, exInc, exBal, exConsolFin, fieldKey, List.filter, List.find?,
        List.filterMap, List.foldl])).2
    2024 (ColKey.int 2024) (by decide)

end QCA
namespace QCA

theorem getCell_cons_self (c : ColKey) (v : CellVal) (r : Row) :
    getCell ((c, v) :: r) c = v := by
  simp [getCell, List.find?]

theorem getCell_cons_ne (c2 c : ColKey) (v : CellVal) (r : Row) (h : c2 ≠ c) :
    getCell ((c2, v) :: r) c = getCell r c := by
  simp [getCell, List.find?, h]

theorem consolidateTable_of_mem (df : DataFrame) (h : fieldKey ∈ df.cols)
    (h2 : fieldColAllNum df = false) :
    consolidateTable df = some ⟨fieldKey :: keptColsOf df, (groupKeys df).map (groupRow df)⟩ := by
  unfold consolidateTable
  rw [if_pos h, if_neg (by rw [h2]; exact Bool.false_ne_true)]

theorem consolidateTable_none_iff (df : DataFrame) :
    consolidateTable df = none ↔ (fieldKey ∉ df.cols ∨ fieldColAllNum df = true) := by
  unfold consolidateTable
  by_cases h : fieldKey ∈ df.cols
  · cases h2 : fieldColAllNum df
    · simp [h, h2]
    · simp [h, h2]
  · simp [h]

theorem consolidateTable_some_elim (df out : DataFrame)
    (h : consolidateTable df = some out) :
    fieldKey ∈ df.cols ∧ fieldColAllNum df = false ∧
      out = ⟨fieldKey :: keptColsOf df, (groupKeys df).map (groupRow df)⟩ := by
  by_cases hm : fieldKey ∈ df.cols
  · cases h2 : fieldColAllNum df with
    | false =>
      rw [consolidateTable_of_mem df hm h2] at h
      cases h
      exact ⟨hm, rfl, rfl⟩
    | true =>
      rw [(consolidateTable_none_iff df).mpr (Or.inr h2)] at h
      cases h
  · rw [(consolidateTable_none_iff df).mpr (Or.inl hm)] at h
    cases h

theorem groupKeys_nodup (df : DataFrame) : (groupKeys df).Nodup := by
  unfold groupKeys
  exact (List.perm_insertionSort pyStrLe _).symm.nodup (List.nodup_dedup _)

theorem mem_groupKeys (df : DataFrame) (k : String) :
    k ∈ groupKeys df ↔ ∃ r ∈ df.rows, consolKey r = some k := by
  unfold groupKeys
  rw [List.mem_insertionSort, List.mem_dedup, List.mem_filterMap]

theorem getCell_groupRow_field (df : DataFrame) (k : String) :
    getCell (groupRow df k) fieldKey = .obj k := by
  unfold groupRow
  exact getCell_cons_self _ _ _

theorem find?_pairs (f : ColKey → Rat) (c : ColKey) :
    ∀ ks : List ColKey,
      List.find? (fun p => decide (p.1 = c)) (ks.map (fun c2 => (c2, CellVal.num (f c2)))) =
        if c ∈ ks then some (c, CellVal.num (f c)) else none
  | [] => by simp
  | k :: ks => by
    by_cases h : k = c
    · subst h
      simp [List.find?]
    · rw [List.map_cons, List.find?_cons_of_neg _ (by simpa using h), find?_pairs f c ks]
      by_cases hm : c ∈ ks
      · rw [if_pos hm, if_pos (List.mem_cons_of_mem _ hm)]
      · rw [if_neg hm, if_neg (by
          intro hmem
          rcases List.mem_cons.mp hmem with he | he
          · exact h he.symm
          · exact hm he)]

theorem getCell_groupRow_kept (df : DataFrame) (k : String) (c : ColKey)
    (h : c ∈ keptColsOf df) :
    getCell (groupRow df k) c = .num (groupSum df k c) := by
  have hcf : c ≠ fieldKey := by
    have h2 := List.of_mem_filter h
    simp at h2
    exact h2.1
  unfold groupRow
  rw [getCell_cons_ne _ _ _ _ (fun e => hcf e.symm)]
  unfold getCell
  rw [find?_pairs (groupSum df k) c (keptColsOf df), if_pos h]

theorem getCell_groupRow_notkept (df : DataFrame) (k : String) (c : ColKey)
    (hcf : c ≠ fieldKey) (h : c ∉ keptColsOf df) :
    getCell (groupRow df k) c = .na := by
  unfold groupRow
  rw [getCell_cons_ne _ _ _ _ (fun e => hcf e.symm)]
  unfold getCell
  rw [find?_pairs (groupSum df k) c (keptColsOf df), if_neg h]

theorem filter_keys_eq (label : String) :
    ∀ ks : List String, ks.Nodup →
      ks.filter (fun k => decide (k = label)) = if label ∈ ks then [label] else []
  | [], _ => by simp
  | k :: ks, h => by
    have hnd := (List.nodup_cons.mp h).2
    have hnm := (List.nodup_cons.mp h).1
    by_cases hk : k = label
    · subst hk
      rw [List.filter_cons_of_pos (by simp)]
      rw [if_pos (List.mem_cons_self _ _)]
      have : ks.filter (fun k2 => decide (k2 = k)) = [] := by
        rw [List.filter_eq_nil_iff]
        intro a ha
        simp
        intro e
        exact hnm (e ▸ ha)
      rw [filter_keys_eq k ks hnd, if_neg hnm]
    · rw [List.filter_cons_of_neg (by simpa using hk)]
      rw [filter_keys_eq label ks hnd]
      by_cases hm : label ∈ ks
      · rw [if_pos hm, if_pos (List.mem_cons_of_mem _ hm)]
      · rw [if_neg hm, if_neg (by
          intro hmem
          rcases List.mem_cons.mp hmem with he | he
          · exact hk he.symm
          · exact hm he)]

theorem consolidated_rows_filter (df : DataFrame) (label : String) :
    ((groupKeys df).map (groupRow df)).filter
        (fun r => decide (getCell r fieldKey = CellVal.obj label)) =
      if label ∈ groupKeys df then [groupRow df label] else [] := by
  rw [List.filter_map]
  have h1 : ((groupKeys df).filter
      ((fun r => decide (getCell r fieldKey = CellVal.obj label)) ∘ groupRow df)) =
      (groupKeys df).filter (fun k => decide (k = label)) := by
    apply List.filter_congr
    intro k _
    simp [Function.comp, getCell_groupRow_field]
  rw [h1, filter_keys_eq label (groupKeys df) (groupKeys_nodup df)]
  by_cases hm : label ∈ groupKeys df
  · rw [if_pos hm, if_pos hm]
    rfl
  · rw [if_neg hm, if_neg hm]
    rfl

theorem groupSum_of_not_mem (df : DataFrame) (label : String) (c : ColKey)
    (h : label ∉ groupKeys df) : groupSum df label c = 0 := by
  unfold groupSum
  have h2 : df.rows.filter (fun r => decide (consolKey r = some label)) = [] := by
    rw [List.filter_eq_nil_iff]
    intro r hr
    simp
    intro he
    exact h ((mem_groupKeys df label).mpr ⟨r, hr, he⟩)
  rw [h2]
  rfl

theorem consolidated_get_value_kept (df out : DataFrame)
    (h : consolidateTable df = some out) (label : String) (c : ColKey)
    (hc : c ∈ keptColsOf df) :
    get_value out label c = groupSum df label c := by
  obtain ⟨-, -, rfl⟩ := consolidateTable_some_elim df out h
  unfold get_value
  rw [consolidated_rows_filter df label]
  by_cases hm : label ∈ groupKeys df
  · rw [if_pos hm]
    simp only [getCell_groupRow_kept df label c hc, toNumeric]
    rfl
  · rw [if_neg hm]
    rw [groupSum_of_not_mem df label c hm]

theorem consolidated_get_value_other (df out : DataFrame)
    (h : consolidateTable df = some out) (label : String) (c : ColKey)
    (hcf : c ≠ fieldKey) (hc : c ∉ keptColsOf df) :
    get_value out label c = 0 := by
  obtain ⟨-, -, rfl⟩ := consolidateTable_some_elim df out h
  unfold get_value
  rw [consolidated_rows_filter df label]
  by_cases hm : label ∈ groupKeys df
  · rw [if_pos hm]
    simp only [getCell_groupRow_notkept df label c hcf hc, toNumeric]
    rfl
  · rw [if_neg hm]

theorem consolidated_labels (df out : DataFrame) (h : consolidateTable df = some out) :
    out.rows.map (fun r => getCell r fieldKey) = (groupKeys df).map CellVal.obj := by
  obtain ⟨-, -, rfl⟩ := consolidateTable_some_elim df out h
  rw [List.map_map]
  apply List.map_congr_left
  intro k _
  exact getCell_groupRow_field df k

theorem consolidated_labels_nodup (df out : DataFrame)
    (h : consolidateTable df = some out) :
    (out.rows.map (fun r => getCell r fieldKey)).Nodup := by
  rw [consolidated_labels df out h]
  exact (groupKeys_nodup df).map (fun a b e => CellVal.obj.inj e)

end QCA
namespace QCA

/-- A readable file whose Income Statement sheet has a Field column but no
rows, alongside a non-empty Balance Sheet. -/
def fEmptyInc : FileInput := some ⟨some ⟨[fieldKey], []⟩, some exBal⟩

/-- C6 counterexample: a file whose Income Statement sheet is present but
has zero rows still consolidates successfully — the result's Income
Statement has zero rows, yet no "no data" failure occurs, so failing is
not equivalent to a zero-row consolidated statement. -/
theorem C6_cex_zero_row_success :
    consolidate_financials [fEmptyInc] =
      some ⟨⟨[fieldKey], []⟩,
            ⟨[fieldKey, .int 2024],
             [[(fieldKey, CellVal.obj "Current assets"), (.int 2024, CellVal.num 200)],
              [(fieldKey, CellVal.obj "Current liabilities"), (.int 2024, CellVal.num 0)]]⟩⟩ := by
  simp [consolidate_financials, collectIncome, collectBalance, concatFrames, unionCols,
    consolidateTable, fieldColAllNum, groupKeys, keptColsOf, groupSum, groupRow, consolKey, colIsNumeric,
    cellNum, getCell, pyStrip, trimChars, List.insertionSort, List.orderedInsert, pyStrLe,
    charListLe, List.dedup, exBal, fEmptyInc, fieldKey, List.filter, List.find?,
    List.filterMap, List.foldl]

/-- C6 amended: consolidate_financials fails (returns the "no data" error
outcome) exactly when no readable file contributed an Income Statement
sheet, or none contributed a Balance Sheet sheet, or, for one of the
statements, the collected rows carry no Field column (the KeyError caught
by the consolidation try block) or the concatenated Field column is
numeric dtype with no missing value (the AttributeError raised by the .str
accessor after the no-op fillna, likewise caught); a present-but-empty
sheet with a Field column consolidates to a zero-row statement without
failing. -/
theorem C6_amended_no_data_iff (files : List FileInput) :
    consolidate_financials files = none ↔
      (collectIncome files = [] ∨ collectBalance files = [] ∨
       (fieldKey ∉ (concatFrames (collectIncome files)).cols ∨
         fieldColAllNum (concatFrames (collectIncome files)) = true) ∨
       (fieldKey ∉ (concatFrames (collectBalance files)).cols ∨
         fieldColAllNum (concatFrames (collectBalance files)) = true)) := by
  simp only [consolidate_financials]
  by_cases h1 : collectIncome files = []
  · rw [if_pos (Or.inl (by simpa using h1))]
    simp [h1]
  · by_cases h2 : collectBalance files = []
    · rw [if_pos (Or.inr (by simpa using h2))]
      simp [h2]
    · rw [if_neg (by
        rintro (hmm | hmm)
        · exact h1 (by simpa using hmm)
        · exact h2 (by simpa using hmm))]
      cases hti : consolidateTable (concatFrames (collectIncome files)) with
      | none =>
        have hf := (consolidateTable_none_iff _).mp hti
        exact ⟨fun _ => Or.inr (Or.inr (Or.inl hf)), fun _ => rfl⟩
      | some fi =>
        cases htb : consolidateTable (concatFrames (collectBalance files)) with
        | none =>
          have hf := (consolidateTable_none_iff _).mp htb
          exact ⟨fun _ => Or.inr (Or.inr (Or.inr hf)), fun _ => rfl⟩
        | some fb =>
          have hi2 := consolidateTable_some_elim _ _ hti
          have hb2 := consolidateTable_some_elim _ _ htb
          constructor
          · intro hmm
            cases hmm
          · rintro (h | h | h | h)
            · exact (h1 h).elim
            · exact (h2 h).elim
            · rcases h with h | h
              · exact (h hi2.1).elim
              · rw [hi2.2.1] at h
                cases h
            · rcases h with h | h
              · exact (h hb2.1).elim
              · rw [hb2.2.1] at h
                cases h

/-- A readable file whose Income Statement rows all carry numeric Field
cells and none missing, so the concatenated Field column is numeric dtype
with no NaN and the .str accessor raises. -/
def fNumField : FileInput :=
  some ⟨some ⟨[fieldKey, .int 2024],
    [[(fieldKey, .num 7), (.int 2024, .num 1)]]⟩, some exBal⟩

/-- C6 amended witness: with no input files both collections are empty and
consolidation fails; and a file whose Income Statement Field column is
all-numeric with no missing cell also fails, through the caught
AttributeError path. -/
theorem C6_amended_no_data_iff_witness :
    consolidate_financials [] = none ∧ consolidate_financials [fNumField] = none :=
  ⟨(C6_amended_no_data_iff []).mpr (Or.inl rfl),
   (C6_amended_no_data_iff [fNumField]).mpr
     (Or.inr (Or.inr (Or.inl (Or.inr (by decide)))))⟩

end QCA
namespace QCA

theorem consolidate_financials_some_elim (files : List FileInput) (fin : Financials)
    (h : consolidate_financials files = some fin) :
    consolidateTable (concatFrames (collectIncome files)) = some fin.income ∧
    consolidateTable (concatFrames (collectBalance files)) = some fin.balance := by
  simp only [consolidate_financials] at h
  by_cases h1 : (collectIncome files).isEmpty = true ∨ (collectBalance files).isEmpty = true
  · rw [if_pos h1] at h
    cases h
  · rw [if_neg h1] at h
    cases hti : consolidateTable (concatFrames (collectIncome files)) with
    | none =>
      rw [hti] at h
      cases h
    | some fi =>
      rw [hti] at h
      cases htb : consolidateTable (concatFrames (collectBalance files)) with
      | none =>
        rw [htb] at h
        cases h
      | some fb =>
        rw [htb] at h
        cases h
        exact ⟨rfl, rfl⟩

theorem mem_keptColsOf (df : DataFrame) (c : ColKey) :
    c ∈ keptColsOf df ↔ c ∈ df.cols ∧ c ≠ fieldKey ∧ colIsNumeric df c = true := by
  unfold keptColsOf
  rw [List.mem_filter]
  simp

theorem cols_of_consolidated (df out : DataFrame) (h : consolidateTable df = some out) :
    out.cols = fieldKey :: keptColsOf df := by
  obtain ⟨-, -, rfl⟩ := consolidateTable_some_elim df out h
  rfl

/-- A file whose Income Statement has a non-numeric cell "x" in the 2024
column next to a numeric 100 in the same column. -/
def fObjCell : FileInput :=
  some ⟨some ⟨[fieldKey, .int 2024],
    [[(fieldKey, .obj "A"), (.int 2024, .obj "x")],
     [(fieldKey, .obj "B"), (.int 2024, .num 100)]]⟩, some exBal⟩

/-- Two readable files whose Income Statement rows carry the labels
" Revenue " and "Revenue" in the same year column. -/
def f5a : FileInput :=
  some ⟨some ⟨[fieldKey, .int 2024],
    [[(fieldKey, .obj " Revenue "), (.int 2024, .num 5)]]⟩, some exBal⟩

def f5b : FileInput :=
  some ⟨some ⟨[fieldKey, .int 2024],
    [[(fieldKey, .obj "Revenue"), (.int 2024, .num 7)]]⟩, some exBal⟩

/-- The consolidation of [f5a, f5b]: the whitespace-differing labels merge
into one "Revenue" group whose 2024 value is the sum 12. -/
def f5Consol : Financials :=
  ⟨⟨[fieldKey, .int 2024], [[(fieldKey, .obj "Revenue"), (.int 2024, .num 12)]]⟩,
   ⟨[fieldKey, .int 2024],
    [[(fieldKey, .obj "Current assets"), (.int 2024, .num 400)],
     [(fieldKey, .obj "Current liabilities"), (.int 2024, .num 0)]]⟩⟩

/-- C5 counterexample: one non-numeric cell ("x") in the 2024 column makes
that column object-dtype, and `sum(numeric_only=True)` then drops the whole
column from the consolidated Income Statement — instead of treating the
cell as 0 and keeping the column with B's 100 as the claim requires. -/
theorem C5_cex_object_column_dropped :
    consolidate_financials [fObjCell] =
      some ⟨⟨[fieldKey], [[(fieldKey, CellVal.obj "A")], [(fieldKey, CellVal.obj "B")]]⟩,
            ⟨[fieldKey, .int 2024],
             [[(fieldKey, CellVal.obj "Current assets"), (.int 2024, CellVal.num 200)],
              [(fieldKey, CellVal.obj "Current liabilities"), (.int 2024, CellVal.num 0)]]⟩⟩ := by
  simp [consolidate_financials, collectIncome, collectBalance, concatFrames, unionCols,
    consolidateTable, fieldColAllNum, groupKeys, keptColsOf, groupSum, groupRow, consolKey, colIsNumeric,
    cellNum, getCell, pyStrip, trimChars, List.insertionSort, List.orderedInsert, pyStrLe,
    charListLe, List.dedup, exBal, fObjCell, fieldKey, List.filter, List.find?,
    List.filterMap, List.foldl]

/-- C5 amended: each consolidated statement groups the collected rows by
the trimmed, null-coalesced Field label, so each distinct label appears at
most once; for every column the consolidation kept, the cell of a label's
row is the numeric sum over the collected rows with that trimmed label,
missing cells counting 0 (so labels differing only in surrounding
whitespace merge into one summed group); but a non-Field column containing
any non-numeric cell is dropped from the consolidated statement entirely
rather than summed with that cell as 0. -/
theorem C5_amended_grouping (files : List FileInput) (fin : Financials)
    (h : consolidate_financials files = some fin) :
    (fin.income.rows.map (fun r => getCell r fieldKey)).Nodup ∧
    (fin.balance.rows.map (fun r => getCell r fieldKey)).Nodup ∧
    (∀ label c, c ∈ fin.income.cols → c ≠ fieldKey →
      get_value fin.income label c = groupSum (concatFrames (collectIncome files)) label c) ∧
    (∀ label c, c ∈ fin.balance.cols → c ≠ fieldKey →
      get_value fin.balance label c = groupSum (concatFrames (collectBalance files)) label c) ∧
    (∀ c, c ∈ (concatFrames (collectIncome files)).cols → c ≠ fieldKey →
      colIsNumeric (concatFrames (collectIncome files)) c = false → c ∉ fin.income.cols) ∧
    (∀ c, c ∈ (concatFrames (collectBalance files)).cols → c ≠ fieldKey →
      colIsNumeric (concatFrames (collectBalance files)) c = false → c ∉ fin.balance.cols) := by
  obtain ⟨hi, hb⟩ := consolidate_financials_some_elim files fin h
  refine ⟨consolidated_labels_nodup _ _ hi, consolidated_labels_nodup _ _ hb, ?_, ?_, ?_, ?_⟩
  · intro label c hc hcf
    rw [cols_of_consolidated _ _ hi] at hc
    rcases List.mem_cons.mp hc with he | he
    · exact absurd he hcf
    · exact consolidated_get_value_kept _ _ hi label c he
  · intro label c hc hcf
    rw [cols_of_consolidated _ _ hb] at hc
    rcases List.mem_cons.mp hc with he | he
    · exact absurd he hcf
    · exact consolidated_get_value_kept _ _ hb label c he
  · intro c hc hcf hnum
    rw [cols_of_consolidated _ _ hi]
    intro hmem
    rcases List.mem_cons.mp hmem with he | he
    · exact hcf he
    · have h2 := (mem_keptColsOf _ c).mp he
      rw [h2.2.2] at hnum
      cases hnum
  · intro c hc hcf hnum
    rw [cols_of_consolidated _ _ hb]
    intro hmem
    rcases List.mem_cons.mp hmem with he | he
    · exact hcf he
    · have h2 := (mem_keptColsOf _ c).mp he
      rw [h2.2.2] at hnum
      cases hnum

/-- C5 amended witness: rows labelled " Revenue " (value 5) and "Revenue"
(value 7) in two files merge into the single "Revenue" group whose 2024
cell is the group sum, which evaluates to 12. -/
theorem C5_amended_grouping_witness :
    get_value f5Consol.income "Revenue" (ColKey.int 2024) =
      groupSum (concatFrames (collectIncome [f5a, f5b])) "Revenue" (ColKey.int 2024) ∧
    groupSum (concatFrames (collectIncome [f5a, f5b])) "Revenue" (ColKey.int 2024) = 12 := by
  constructor
  · have hcons : consolidate_financials [f5a, f5b] = some f5Consol := by
      simp [consolidate_financials, collectIncome, collectBalance, concatFrames, unionCols,
        consolidateTable, fieldColAllNum, groupKeys, keptColsOf, groupSum, groupRow, consolKey, colIsNumeric,
        cellNum, getCell, pyStrip, trimChars, List.insertionSort, List.orderedInsert, pyStrLe,
        charListLe, List.dedup, exBal, f5a, f5b, f5Consol, fieldKey, List.filter, List.find?,
        List.filterMap, List.foldl]
      norm_num
    exact ((C5_amended_grouping [f5a, f5b] f5Consol hcons).2.2.1) "Revenue" (ColKey.int 2024)
      (by decide) (by decide)
  · simp [collectIncome, concatFrames, unionCols, groupSum, consolKey, cellNum, getCell,
      pyStrip, trimChars, f5a, f5b, fieldKey, List.filter, List.filterMap, List.find?]
    norm_num

end QCA
namespace QCA

theorem perm_all_eq {α : Type} (l1 l2 : List α) (p : α → Bool) (h : l1.Perm l2) :
    l1.all p = l2.all p := by
  rw [Bool.eq_iff_iff, List.all_eq_true, List.all_eq_true]
  exact ⟨fun H a ha => H a (h.mem_iff.mpr ha), fun H a ha => H a (h.mem_iff.mp ha)⟩

theorem colIsNumeric_perm (d1 d2 : DataFrame) (h : d1.rows.Perm d2.rows) (c : ColKey) :
    colIsNumeric d1 c = colIsNumeric d2 c :=
  perm_all_eq _ _ _ h

theorem fieldColAllNum_perm (d1 d2 : DataFrame) (h : d1.rows.Perm d2.rows) :
    fieldColAllNum d1 = fieldColAllNum d2 := by
  unfold fieldColAllNum
  rw [perm_all_eq _ _ _ h]
  have hl : d1.rows.isEmpty = d2.rows.isEmpty := by
    rw [Bool.eq_iff_iff, List.isEmpty_iff, List.isEmpty_iff]
    constructor
    · intro e
      have h2 := h
      rw [e] at h2
      exact h2.symm.eq_nil
    · intro e
      have h2 := h
      rw [e] at h2
      exact h2.eq_nil
  rw [hl]

theorem groupKeys_eq_of_perm (d1 d2 : DataFrame) (h : d1.rows.Perm d2.rows) :
    groupKeys d1 = groupKeys d2 := by
  unfold groupKeys
  exact List.eq_of_perm_of_sorted
    (((List.perm_insertionSort pyStrLe _).trans ((h.filterMap consolKey).dedup)).trans
      (List.perm_insertionSort pyStrLe _).symm)
    (List.sorted_insertionSort pyStrLe _) (List.sorted_insertionSort pyStrLe _)

theorem groupSum_eq_of_perm (d1 d2 : DataFrame) (h : d1.rows.Perm d2.rows) (k : String)
    (c : ColKey) : groupSum d1 k c = groupSum d2 k c := by
  unfold groupSum
  exact ((h.filter _).map _).sum_eq

theorem keptColsOf_perm (d1 d2 : DataFrame) (hrows : d1.rows.Perm d2.rows)
    (hcols : d1.cols.Perm d2.cols) : (keptColsOf d1).Perm (keptColsOf d2) := by
  unfold keptColsOf
  have hfun : (fun c => decide (c ≠ fieldKey) && colIsNumeric d1 c) =
      (fun c => decide (c ≠ fieldKey) && colIsNumeric d2 c) := by
    funext c
    rw [colIsNumeric_perm d1 d2 hrows c]
  rw [hfun]
  exact hcols.filter _

/-- Equality of two consolidated tables up to column order: the same
column multiset, identical row labels in the same order, and identical
looked-up values at every non-Field column. -/
def tableContentEq (t u : DataFrame) : Prop :=
  t.cols.Perm u.cols ∧
  t.rows.map (fun r => getCell r fieldKey) = u.rows.map (fun r => getCell r fieldKey) ∧
  ∀ label c, c ≠ fieldKey → get_value t label c = get_value u label c

theorem consolidateTable_perm_equiv (d1 d2 o1 o2 : DataFrame)
    (hrows : d1.rows.Perm d2.rows) (hcols : d1.cols.Perm d2.cols)
    (h1 : consolidateTable d1 = some o1) (h2 : consolidateTable d2 = some o2) :
    tableContentEq o1 o2 := by
  have hkeys := groupKeys_eq_of_perm d1 d2 hrows
  refine ⟨?_, ?_, ?_⟩
  · rw [cols_of_consolidated _ _ h1, cols_of_consolidated _ _ h2]
    exact (keptColsOf_perm d1 d2 hrows hcols).cons _
  · rw [consolidated_labels _ _ h1, consolidated_labels _ _ h2, hkeys]
  · intro label c hcf
    by_cases hk : c ∈ keptColsOf d1
    · rw [consolidated_get_value_kept _ _ h1 label c hk,
        consolidated_get_value_kept _ _ h2 label c
          ((keptColsOf_perm d1 d2 hrows hcols).mem_iff.mp hk)]
      exact groupSum_eq_of_perm d1 d2 hrows label c
    · rw [consolidated_get_value_other _ _ h1 label c hcf hk,
        consolidated_get_value_other _ _ h2 label c hcf
          (fun hmm => hk ((keptColsOf_perm d1 d2 hrows hcols).mem_iff.mpr hmm))]

theorem concat_pair_rows (a b : DataFrame) :
    (concatFrames [a, b]).rows = a.rows ++ b.rows := by
  simp [concatFrames]

theorem unionCols_nil (cs : List ColKey) : unionCols [] cs = cs := by
  simp [unionCols]

theorem concat_pair_cols (a b : DataFrame) :
    (concatFrames [a, b]).cols = unionCols a.cols b.cols := by
  simp [concatFrames, List.foldl, unionCols_nil]

theorem mem_unionCols (as bs : List ColKey) (c : ColKey) :
    c ∈ unionCols as bs ↔ c ∈ as ∨ c ∈ bs := by
  unfold unionCols
  rw [List.mem_append, List.mem_filter]
  constructor
  · rintro (h | ⟨h, -⟩)
    · exact Or.inl h
    · exact Or.inr h
  · rintro (h | h)
    · exact Or.inl h
    · by_cases ha : c ∈ as
      · exact Or.inl ha
      · exact Or.inr ⟨h, by simpa using ha⟩

theorem unionCols_nodup (as bs : List ColKey) (ha : as.Nodup) (hb : bs.Nodup) :
    (unionCols as bs).Nodup := by
  unfold unionCols
  refine ha.append (hb.filter _) (fun c hc hcf => ?_)
  have h3 := List.of_mem_filter hcf
  simp at h3
  exact h3 hc

theorem unionCols_perm (as bs : List ColKey) (ha : as.Nodup) (hb : bs.Nodup) :
    (unionCols as bs).Perm (unionCols bs as) :=
  (List.perm_ext_iff_of_nodup (unionCols_nodup as bs ha hb) (unionCols_nodup bs as hb ha)).mpr
    (fun c => by rw [mem_unionCols, mem_unionCols]; exact or_comm)

/-- The Income Statement sheet of the first commutativity file. -/
def incA : DataFrame :=
  ⟨[fieldKey, .int 2024], [[(fieldKey, .obj "Revenue"), (.int 2024, .num 5)]]⟩

/-- The Income Statement sheet of the second commutativity file, with a
different year column. -/
def incB : DataFrame :=
  ⟨[fieldKey, .int 2023], [[(fieldKey, .obj "Revenue"), (.int 2023, .num 7)]]⟩

def fileA : FileInput := some ⟨some incA, some exBal⟩

def fileB : FileInput := some ⟨some incB, some exBal⟩

/-- C10 counterexample: consolidating [A, B] and [B, A] gives consolidated
Income Statements whose columns (and row cell order) differ — [Field,
2024, 2023] versus [Field, 2023, 2024] — so the two results are not the
same table, only content-equal up to column order. -/
theorem C10_cex_column_order :
    consolidate_financials [fileA, fileB] ≠ consolidate_financials [fileB, fileA] := by
  have hab : consolidate_financials [fileA, fileB] =
      some ⟨⟨[fieldKey, .int 2024, .int 2023],
             [[(fieldKey, CellVal.obj "Revenue"), (.int 2024, CellVal.num 5),
               (.int 2023, CellVal.num 7)]]⟩,
            ⟨[fieldKey, .int 2024],
             [[(fieldKey, CellVal.obj "Current assets"), (.int 2024, CellVal.num 400)],
              [(fieldKey, CellVal.obj "Current liabilities"), (.int 2024, CellVal.num 0)]]⟩⟩ := by
    simp [consolidate_financials, collectIncome, collectBalance, concatFrames, unionCols,
      consolidateTable, fieldColAllNum, groupKeys, keptColsOf, groupSum, groupRow, consolKey, colIsNumeric,
      cellNum, getCell, pyStrip, trimChars, List.insertionSort, List.orderedInsert, pyStrLe,
      charListLe, List.dedup, exBal, fileA, fileB, incA, incB, fieldKey, List.filter,
      List.find?, List.filterMap, List.foldl]
    norm_num
  have hba : consolidate_financials [fileB, fileA] =
      some ⟨⟨[fieldKey, .int 2023, .int 2024],
             [[(fieldKey, CellVal.obj "Revenue"), (.int 2023, CellVal.num 7),
               (.int 2024, CellVal.num 5)]]⟩,
            ⟨[fieldKey, .int 2024],
             [[(fieldKey, CellVal.obj "Current assets"), (.int 2024, CellVal.num 400)],
              [(fieldKey, CellVal.obj "Current liabilities"), (.int 2024, CellVal.num 0)]]⟩⟩ := by
    simp [consolidate_financials, collectIncome, collectBalance, concatFrames, unionCols,
      consolidateTable, fieldColAllNum, groupKeys, keptColsOf, groupSum, groupRow, consolKey, colIsNumeric,
      cellNum, getCell, pyStrip, trimChars, List.insertionSort, List.orderedInsert, pyStrLe,
      charListLe, List.dedup, exBal, fileA, fileB, incA, incB, fieldKey, List.filter,
      List.find?, List.filterMap, List.foldl]
    norm_num
  rw [hab, hba]
  decide

/-- C10 amended: for two readable files containing both sheets (with
duplicate-free columns, as read_excel produces), consolidation in the two
file orders either fails in both or succeeds in both, and on success the
consolidated statements agree up to column order: same column multiset,
identical row labels in identical order, and identical values at every
non-Field column — but not necessarily the same column sequence. -/
theorem C10_amended_commutative_content (ia ba ib bb : DataFrame)
    (h1 : ia.cols.Nodup) (h2 : ba.cols.Nodup) (h3 : ib.cols.Nodup) (h4 : bb.cols.Nodup) :
    (consolidate_financials [some ⟨some ia, some ba⟩, some ⟨some ib, some bb⟩] = none ∧
     consolidate_financials [some ⟨some ib, some bb⟩, some ⟨some ia, some ba⟩] = none) ∨
    (∃ fab fba,
      consolidate_financials [some ⟨some ia, some ba⟩, some ⟨some ib, some bb⟩] = some fab ∧
      consolidate_financials [some ⟨some ib, some bb⟩, some ⟨some ia, some ba⟩] = some fba ∧
      tableContentEq fab.income fba.income ∧ tableContentEq fab.balance fba.balance) := by
  have hrowsI : (concatFrames [ia, ib]).rows.Perm (concatFrames [ib, ia]).rows := by
    rw [concat_pair_rows, concat_pair_rows]
    exact List.perm_append_comm
  have hcolsI : (concatFrames [ia, ib]).cols.Perm (concatFrames [ib, ia]).cols := by
    rw [concat_pair_cols, concat_pair_cols]
    exact unionCols_perm _ _ h1 h3
  have hrowsB : (concatFrames [ba, bb]).rows.Perm (concatFrames [bb, ba]).rows := by
    rw [concat_pair_rows, concat_pair_rows]
    exact List.perm_append_comm
  have hcolsB : (concatFrames [ba, bb]).cols.Perm (concatFrames [bb, ba]).cols := by
    rw [concat_pair_cols, concat_pair_cols]
    exact unionCols_perm _ _ h2 h4
  have hunf1 : consolidate_financials [some ⟨some ia, some ba⟩, some ⟨some ib, some bb⟩] =
      match consolidateTable (concatFrames [ia, ib]), consolidateTable (concatFrames [ba, bb]) with
      | some fi, some fb => some ⟨fi, fb⟩
      | _, _ => none := rfl
  have hunf2 : consolidate_financials [some ⟨some ib, some bb⟩, some ⟨some ia, some ba⟩] =
      match consolidateTable (concatFrames [ib, ia]), consolidateTable (concatFrames [bb, ba]) with
      | some fi, some fb => some ⟨fi, fb⟩
      | _, _ => none := rfl
  rw [hunf1, hunf2]
  cases htiAB : consolidateTable (concatFrames [ia, ib]) with
  | none =>
    have hfBA : consolidateTable (concatFrames [ib, ia]) = none := by
      rcases (consolidateTable_none_iff _).mp htiAB with hf | hf
      · exact (consolidateTable_none_iff _).mpr
          (Or.inl (fun hmm => hf (hcolsI.mem_iff.mpr hmm)))
      · refine (consolidateTable_none_iff _).mpr (Or.inr ?_)
        rw [← fieldColAllNum_perm _ _ hrowsI]
        exact hf
    rw [hfBA]
    exact Or.inl ⟨rfl, rfl⟩
  | some fiAB =>
    have heiAB := consolidateTable_some_elim _ _ htiAB
    have hfiBA : fieldKey ∈ (concatFrames [ib, ia]).cols := hcolsI.mem_iff.mp heiAB.1
    have hniBA : fieldColAllNum (concatFrames [ib, ia]) = false := by
      rw [← fieldColAllNum_perm _ _ hrowsI]
      exact heiAB.2.1
    have htiBA := consolidateTable_of_mem _ hfiBA hniBA
    rw [htiBA]
    cases htbAB : consolidateTable (concatFrames [ba, bb]) with
    | none =>
      have hfBA : consolidateTable (concatFrames [bb, ba]) = none := by
        rcases (consolidateTable_none_iff _).mp htbAB with hf | hf
        · exact (consolidateTable_none_iff _).mpr
            (Or.inl (fun hmm => hf (hcolsB.mem_iff.mpr hmm)))
        · refine (consolidateTable_none_iff _).mpr (Or.inr ?_)
          rw [← fieldColAllNum_perm _ _ hrowsB]
          exact hf
      rw [hfBA]
      exact Or.inl ⟨rfl, rfl⟩
    | some fbAB =>
      have hebAB := consolidateTable_some_elim _ _ htbAB
      have hfbBA : fieldKey ∈ (concatFrames [bb, ba]).cols := hcolsB.mem_iff.mp hebAB.1
      have hnbBA : fieldColAllNum (concatFrames [bb, ba]) = false := by
        rw [← fieldColAllNum_perm _ _ hrowsB]
        exact hebAB.2.1
      have htbBA := consolidateTable_of_mem _ hfbBA hnbBA
      rw [htbBA]
      refine Or.inr ⟨⟨fiAB, fbAB⟩, ⟨_, _⟩, rfl, rfl, ?_, ?_⟩
      · exact consolidateTable_perm_equiv _ _ _ _ hrowsI hcolsI htiAB htiBA
      · exact consolidateTable_perm_equiv _ _ _ _ hrowsB hcolsB htbAB htbBA

/-- C10 amended witness: the two concrete files with different year
columns consolidate in both orders to content-equal statements. -/
theorem C10_amended_commutative_content_witness :
    (consolidate_financials [some ⟨some incA, some exBal⟩, some ⟨some incB, some exBal⟩] = none ∧
     consolidate_financials [some ⟨some incB, some exBal⟩, some ⟨some incA, some exBal⟩] = none) ∨
    (∃ fab fba,
      consolidate_financials [some ⟨some incA, some exBal⟩, some ⟨some incB, some exBal⟩] =
        some fab ∧
      consolidate_financials [some ⟨some incB, some exBal⟩, some ⟨some incA, some exBal⟩] =
        some fba ∧
      tableContentEq fab.income fba.income ∧ tableContentEq fab.balance fba.balance) :=
  C10_amended_commutative_content incA exBal incB exBal
    (by decide) (by decide) (by decide) (by decide)

end QCA
